import Mathlib

/-!
Verification of the MU Foods backend (src/main.py, src/schemas.py).

The HTTP handlers of `main.py` are embedded shallowly: each endpoint becomes a
pure Lean function from its inputs (query parameters, request body, store
contents) to its result (response value and, where relevant, the new store
contents).  The store adapter `database.py` is not part of src/; following the
specification it is modelled as a passthrough "find by filter" / "insert"
layer over a MongoDB-style document store, so the filter dictionaries built in
`main.py` are evaluated with MongoDB's documented operator semantics
(equality, `$in` over an array field, `$or`, `$regex` with the `i` option).

Machine reals (the float prices) are modelled as rationals; timestamps as
natural numbers (abstract UTC instants).
-/

/-- Python truthiness of an `Optional[str]` parameter: `None` and the empty
string are falsy (`if tag:` / `if q:` in `list_beverages`, main.py:31,33). -/
def pyTruthy : Option String → Bool
  | none => false
  | some s => !(s == "")

/-! ### MongoDB `$regex` (case-insensitive) — modelled fragment

`list_beverages` (main.py:34-38) passes the raw query string `q` as a
`$regex` pattern with `"$options": "i"`.  MongoDB performs an unanchored,
case-insensitive PCRE search.  Modelled from the spec and MongoDB's documented
behaviour, restricted to the pattern fragment consisting of literal characters
and the `.` wildcard; every theorem below evaluates the matcher only on
patterns inside this fragment (literal-only patterns, or the single
metacharacter pattern "."). -/

/-- One pattern character against one subject character: `.` matches any
character, a literal matches up to ASCII case folding (the `i` option). -/
def matchChar (p c : Char) : Bool :=
  p == '.' || p.toLower == c.toLower

/-- Anchored match of a pattern at the head of the subject. -/
def matchHere : List Char → List Char → Bool
  | [], _ => true
  | _ :: _, [] => false
  | p :: ps, c :: cs => matchChar p c && matchHere ps cs

/-- Unanchored search: the pattern may match at any position of the subject
(including the empty suffix at the end). -/
def regexSearch (p : List Char) : List Char → Bool
  | [] => matchHere p []
  | c :: cs => matchHere p (c :: cs) || regexSearch p cs

/-- Case-insensitive regex search on strings, as performed by the store for
`{"$regex": pat, "$options": "i"}`. -/
def regexSearchI (pat s : String) : Bool :=
  regexSearch pat.toList s.toList

/-- The PCRE regular-expression metacharacters.  A pattern containing none of
them is matched purely literally. -/
def isRegexMeta (c : Char) : Bool :=
  c == '\\' || c == '^' || c == '$' || c == '.' || c == '|' || c == '?' ||
  c == '*' || c == '+' || c == '(' || c == ')' || c == '[' || c == ']' ||
  c == '\x7b' || c == '\x7d'

/-! ### Data model (schemas.py) -/

/-- A document of the `beverage` collection.  Fields follow
`schemas.Beverage` (schemas.py:43-55): `name`, `flavor` required strings,
`description` optional, `price : float (≥ 0)` modelled as `ℚ`,
`size_ml : int (50..5000)`, optional `image_url`, `tags` list, `in_stock`
flag; plus the store-assigned `_id` and the `created_at`/`updated_at`
timestamps stamped by the seed endpoint (absent on documents that were
inserted without them). -/
structure BeverageDoc where
  _id : Option Nat
  name : String
  flavor : String
  description : Option String
  price : ℚ
  size_ml : Int
  image_url : Option String
  tags : List String
  in_stock : Bool
  created_at : Option Nat
  updated_at : Option Nat
deriving DecidableEq, Repr

/-- A persisted `contactinquiry` document (`schemas.ContactInquiry`,
schemas.py:57-66). -/
structure ContactInquiry where
  name : String
  email : String
  phone : Option String
  subject : String
  message : String
deriving DecidableEq, Repr

/-- The request body of POST /api/contact (`CreateInquiry`, main.py:46-51).
Its `email` field is a plain `str`: no email validation happens at request
parsing time. -/
structure CreateInquiry where
  name : String
  email : String
  phone : Option String
  subject : String
  message : String
deriving DecidableEq, Repr

/-! ### Handler outcomes

FastAPI maps a handler's fate to an HTTP status: a returned value is a 200
response, a raised `HTTPException` carries its own status, a request-body
validation failure is a 422, and any other uncaught exception is turned into
a 500 Internal Server Error by the server middleware. -/

/-- Outcome of running one request handler. -/
inductive HandlerOutcome (α : Type) where
  /-- The handler returned a value: 200 response. -/
  | ok (value : α)
  /-- The handler raised `HTTPException(status_code, detail)`. -/
  | httpError (status : Nat) (detail : String)
  /-- The request body failed the route model's validation: FastAPI replies 422. -/
  | invalidRequest (detail : String)
  /-- An exception escaped the handler: the middleware replies 500. -/
  | unhandled (msg : String)
deriving DecidableEq, Repr

/-- The HTTP status code FastAPI sends for each handler outcome. -/
def httpStatusOf {α : Type} : HandlerOutcome α → Nat
  | .ok _ => 200
  | .httpError s _ => s
  | .invalidRequest _ => 422
  | .unhandled _ => 500

/-! ### GET /api/beverages (main.py:27-43) -/

/-- The filter dictionary built by `list_beverages`: always
`{"in_stock": True}`, plus `{"tags": {"$in": [tag]}}` when `tag` is truthy and
the `$or` regex group over name/flavor/description when `q` is truthy. -/
structure BeverageFilter where
  in_stock : Bool
  /-- The single tag of the `"$in": [tag]` clause, when present. -/
  tagIn : Option String
  /-- The pattern of the three-field `$or` regex group, when present. -/
  orRegex : Option String
deriving DecidableEq, Repr

/-- `filter_dict` construction, main.py:30-38 (`if tag:` / `if q:` are Python
truthiness tests, so `None` and `""` both leave the clause out). -/
def buildFilter (tag q : Option String) : BeverageFilter :=
  { in_stock := true
    tagIn := if pyTruthy tag then tag else none
    orRegex := if pyTruthy q then q else none }

/-- Modelled from the spec: `database.get_documents` (database.py is not in
src/) is a passthrough find-by-filter, so a document matches iff it satisfies
every clause of the filter dictionary, with MongoDB operator semantics:
field equality for `in_stock`, `$in` = membership of the tag in the `tags`
array, `$or` = at least one of the three `$regex` clauses matches (a clause on
the optional `description` does not match when the field is absent). -/
def evalFilter (f : BeverageFilter) (d : BeverageDoc) : Bool :=
  (d.in_stock == f.in_stock) &&
  (match f.tagIn with
   | none => true
   | some t => d.tags.contains t) &&
  (match f.orRegex with
   | none => true
   | some pat =>
     regexSearchI pat d.name || regexSearchI pat d.flavor ||
     (match d.description with
      | none => false
      | some ds => regexSearchI pat ds))

/-- `i.pop("_id", None)` applied to each returned document (main.py:41-42):
the store-assigned identifier is removed before serialization. -/
def stripId (d : BeverageDoc) : BeverageDoc :=
  { d with _id := none }

/-- GET /api/beverages (`list_beverages`, main.py:27-43): find the documents
matching the built filter, then strip `_id` from each. -/
def list_beverages (store : List BeverageDoc) (tag q : Option String) :
    List BeverageDoc :=
  (store.filter (evalFilter (buildFilter tag q))).map stripId

/-! ### Spec-side substring semantics (for the refinement claim about `q`)

The specification words: "`q` (case-insensitive substring match against name,
flavor, or description, matched if ANY field matches)".  These definitions
follow the spec's words, to be compared with the `$regex` behaviour embedded
above. -/

/-- All characters of a string, lower-cased. -/
def lowerChars (s : String) : List Char :=
  s.toList.map Char.toLower

/-- Occurrence of `needle` as a contiguous sublist of the subject: a prefix
match at some position. -/
def subSearch (needle : List Char) : List Char → Bool
  | [] => needle.isEmpty
  | c :: cs => needle.isPrefixOf (c :: cs) || subSearch needle cs

/-- Spec-side definition: `needle` occurs as a case-insensitive substring of
`hay`. -/
def specContainsCI (hay needle : String) : Bool :=
  subSearch (lowerChars needle) (lowerChars hay)

/-- Spec-side definition: `q` occurs as a case-insensitive substring of the
name, flavor, or description field (a missing description matches nothing). -/
def specQMatches (q : String) (d : BeverageDoc) : Bool :=
  specContainsCI d.name q || specContainsCI d.flavor q ||
  (match d.description with
   | none => false
   | some ds => specContainsCI ds q)

/-! ### POST /api/contact (main.py:46-58) -/

/-- Modelled from the spec: the `EmailStr` validator of the schema layer
("email fields always syntactically valid per standard email-address
grammar"; the validator library is not in src/).  Simplified grammar: exactly
one `@`; a nonempty local part; a nonempty domain that contains a dot, does
not start or end with a dot; and no spaces anywhere.  The spec's example
invalid address "not-an-email" (no `@`) is rejected. -/
def isValidEmail (e : String) : Bool :=
  let cs := e.toList
  let localPart := cs.takeWhile (fun c => !(c == '@'))
  let domain := (cs.dropWhile (fun c => !(c == '@'))).drop 1
  (cs.count '@' == 1) &&
  !localPart.isEmpty &&
  !domain.isEmpty &&
  domain.contains '.' &&
  !(domain.head? == some '.') &&
  !(domain.getLast? == some '.') &&
  !(cs.contains ' ')

/-- The `{"ok": True, "id": _id}` response of POST /api/contact. -/
structure ContactResponse where
  ok : Bool
  id : Nat
deriving DecidableEq, Repr

/-- POST /api/contact (`submit_contact`, main.py:54-58).  The handler
re-validates the body by constructing `ContactInquiry(**inquiry.model_dump())`
inside the handler; when the email is invalid this raises a pydantic
`ValidationError` that is NOT a `RequestValidationError`, so it escapes the
handler and the middleware replies 500 (not 422).  On success
`create_document` (modelled from the spec: persists one record, returning a
generated identifier) appends the inquiry and the handler returns
`{ok, id}`. -/
def submit_contact (store : List ContactInquiry) (inquiry : CreateInquiry)
    (newId : Nat) : List ContactInquiry × HandlerOutcome ContactResponse :=
  if isValidEmail inquiry.email then
    (store ++ [⟨inquiry.name, inquiry.email, inquiry.phone, inquiry.subject,
               inquiry.message⟩],
     .ok ⟨true, newId⟩)
  else
    (store, .unhandled "pydantic ValidationError: value is not a valid email address")

/-! ### POST /api/beverages/seed (main.py:61-119) -/

/-- The four hardcoded sample beverages (main.py:69-110), with
`created_at`/`updated_at` stamped with the current UTC time `now`
(main.py:112-116). -/
def sampleBeverages (now : Nat) : List BeverageDoc :=
  [{ _id := none, name := "Citrus Zing", flavor := "Lemon + Lime",
     description := some "A bright, zesty squash made from sun-ripened lemons and limes.",
     price := 3.99, size_ml := 500,
     image_url := some "https://images.unsplash.com/photo-1524594227084-6df73d85d2f9?w=800&q=80",
     tags := ["citrus", "refreshing", "vegan"], in_stock := true,
     created_at := some now, updated_at := some now },
   { _id := none, name := "Mango Bliss", flavor := "Alphonso Mango",
     description := some "Thick, luscious mango squash with no added preservatives.",
     price := 4.49, size_ml := 500,
     image_url := some "https://images.unsplash.com/photo-1547514701-42782101795e?w=800&q=80",
     tags := ["tropical", "best-seller"], in_stock := true,
     created_at := some now, updated_at := some now },
   { _id := none, name := "Guava Glow", flavor := "Pink Guava",
     description := some "Delicately sweet guava squash perfect for summer coolers.",
     price := 4.29, size_ml := 500,
     image_url := some "https://images.unsplash.com/photo-1604908554027-6e2ce8f94bd7?w=800&q=80",
     tags := ["tropical", "vitamin-c"], in_stock := true,
     created_at := some now, updated_at := some now },
   { _id := none, name := "Orange Orchard", flavor := "Valencia Orange",
     description := some "Classic orange squash with a clean, fresh finish.",
     price := 3.79, size_ml := 500,
     image_url := some "https://images.unsplash.com/photo-1557800636-894a64c1696f?w=800&q=80",
     tags := ["citrus", "family"], in_stock := true,
     created_at := some now, updated_at := some now }]

/-- The `{"ok", "message", "count"}` response of the seed endpoint. -/
structure SeedResponse where
  ok : Bool
  message : String
  count : Nat
deriving DecidableEq, Repr

/-- POST /api/beverages/seed (`seed_beverages`, main.py:61-119).  The `db`
argument is the store handle (None when no database is configured, otherwise
the current contents of the `beverage` collection); `now` is the current UTC
time.  Returns the new collection contents together with the handler
outcome.  Raises HTTP 500 when `db is None` (main.py:63-64); no-ops with the
pre-existing count when any documents exist (main.py:65-67); otherwise
inserts the four timestamped samples and reports their number. -/
def seed_beverages (db : Option (List BeverageDoc)) (now : Nat) :
    Option (List BeverageDoc) × HandlerOutcome SeedResponse :=
  match db with
  | none => (none, .httpError 500 "Database not configured")
  | some store =>
    let count := store.length
    if count > 0 then
      (some store, .ok ⟨true, "Beverages already seeded", count⟩)
    else
      let sample := sampleBeverages now
      (some (store ++ sample), .ok ⟨true, "Seeded beverages", sample.length⟩)

/-! ### GET /test (main.py:122-155) -/

/-- The store handle as seen by the diagnostics endpoint: an optional name
(`db.name if hasattr(db, 'name')`) and the result of
`db.list_collection_names()`, which either returns the collection names or
raises an exception carrying a message. -/
structure DbHandle where
  name : Option String
  collectionsResult : Except String (List String)

/-- The diagnostic response dictionary (main.py:124-131).  `database_url` and
`database_name` start out as `None`, hence `Option String`. -/
structure TestResponse where
  backend : String
  database : String
  database_url : Option String
  database_name : Option String
  connection_status : String
  collections : List String
deriving DecidableEq, Repr

/-- `str(e)[:50]` — truncate an exception message to 50 characters. -/
def strTake (n : Nat) (s : String) : String :=
  ⟨s.toList.take n⟩

/-- GET /test (`test_database`, main.py:122-155).  All store access is inside
try/except: a failing `list_collection_names` is caught and reported as a
descriptive string (main.py:144-145).  The trailing assignments
(main.py:152-153) overwrite `database_url`/`database_name` with the presence
of the two environment values unconditionally.  The handler always returns a
value, so the outcome is always `.ok`. -/
def test_database (db : Option DbHandle) (urlSet nameSet : Bool) :
    HandlerOutcome TestResponse :=
  let r0 : TestResponse :=
    { backend := "✅ Running", database := "❌ Not Available",
      database_url := none, database_name := none,
      connection_status := "Not Connected", collections := [] }
  let r1 :=
    match db with
    | some h =>
      let r := { r0 with
                 database := "✅ Available",
                 database_url := some "✅ Configured",
                 database_name := some (match h.name with
                   | some n => n
                   | none => "✅ Connected"),
                 connection_status := "Connected" }
      match h.collectionsResult with
      | .ok cols => { r with collections := cols.take 10,
                             database := "✅ Connected & Working" }
      | .error e => { r with database := "⚠️  Connected but Error: " ++ strTake 50 e }
    | none => { r0 with database := "⚠️  Available but not initialized" }
  .ok { r1 with
        database_url := some (if urlSet then "✅ Set" else "❌ Not Set"),
        database_name := some (if nameSet then "✅ Set" else "❌ Not Set") }

/-! ### Concrete documents used by witnesses and counterexamples -/

/-- A plain in-stock document none of whose text fields contains a dot. -/
def mangoPlainDoc : BeverageDoc :=
  { _id := some 7, name := "Mango", flavor := "Mango", description := none,
    price := 4, size_ml := 500, image_url := none, tags := ["tropical"],
    in_stock := true, created_at := none, updated_at := none }

/-- An in-stock document tagged "citrus". -/
def citrusDoc : BeverageDoc :=
  { _id := some 1, name := "Citrus Zing", flavor := "Lemon", description := none,
    price := 4, size_ml := 500, image_url := none, tags := ["citrus"],
    in_stock := true, created_at := none, updated_at := none }

/-- A minimal document making the beverage collection nonempty. -/
def demoDoc : BeverageDoc :=
  { _id := none, name := "Demo", flavor := "Plain", description := none,
    price := 4, size_ml := 500, image_url := none, tags := [],
    in_stock := true, created_at := none, updated_at := none }

/-- The first sample beverage at time 0 (used to instantiate the seed-data
invariant). -/
def citrusZingDoc : BeverageDoc :=
  { _id := none, name := "Citrus Zing", flavor := "Lemon + Lime",
    description := some "A bright, zesty squash made from sun-ripened lemons and limes.",
    price := 3.99, size_ml := 500,
    image_url := some "https://images.unsplash.com/photo-1524594227084-6df73d85d2f9?w=800&q=80",
    tags := ["citrus", "refreshing", "vegan"], in_stock := true,
    created_at := some 0, updated_at := some 0 }

/-- The example invalid contact body from the spec: `email = "not-an-email"`. -/
def invalidInquiry : CreateInquiry :=
  ⟨"Ada", "not-an-email", none, "Hello", "Hi there"⟩

/-! ### Helper lemmas -/

/-- The built filter always demands `in_stock = true`. -/
theorem buildFilter_in_stock (tag q : Option String) :
    (buildFilter tag q).in_stock = true := rfl

/-- A document passing the filter is in stock. -/
theorem evalFilter_in_stock {f : BeverageFilter} {d : BeverageDoc}
    (hf : evalFilter f d = true) : (d.in_stock == f.in_stock) = true := by
  simp only [evalFilter, Bool.and_eq_true] at hf
  exact hf.1.1

/-- Stripping the identifier does not change any other field. -/
theorem stripId_fields (d : BeverageDoc) :
    (stripId d)._id = none ∧ (stripId d).in_stock = d.in_stock ∧
    (stripId d).tags = d.tags := ⟨rfl, rfl, rfl⟩

/-- `isPrefixOf` against the empty list is emptiness. -/
theorem isPrefixOf_nil_right (l : List Char) : l.isPrefixOf [] = l.isEmpty := by
  cases l <;> rfl

/-- For a pattern character other than `.`, `matchChar` is case-folded
equality. -/
theorem matchChar_of_not_dot {p : Char} (c : Char) (h : p ≠ '.') :
    matchChar p c = (p.toLower == c.toLower) := by
  simp [matchChar, h]

/-- A dot-free pattern matches at the head of the subject exactly when its
lower-casing is a prefix of the subject's lower-casing. -/
theorem matchHere_literal : ∀ (p s : List Char), (∀ c ∈ p, c ≠ '.') →
    matchHere p s = (p.map Char.toLower).isPrefixOf (s.map Char.toLower)
  | [], s, _ => by cases s <;> simp [matchHere, List.isPrefixOf]
  | p :: ps, [], _ => by simp [matchHere, List.isPrefixOf]
  | p :: ps, c :: cs, h => by
    have hp : p ≠ '.' := h p (List.mem_cons_self _ _)
    have ih := matchHere_literal ps cs (fun x hx => h x (List.mem_cons_of_mem _ hx))
    simp [matchHere, List.isPrefixOf, matchChar_of_not_dot c hp, ih]

/-- A dot-free pattern is found by the unanchored regex search exactly when
its lower-casing occurs as a contiguous sublist of the subject's
lower-casing. -/
theorem regexSearch_literal : ∀ (p s : List Char), (∀ c ∈ p, c ≠ '.') →
    regexSearch p s = subSearch (p.map Char.toLower) (s.map Char.toLower)
  | p, [], h => by
    simp [regexSearch, subSearch, matchHere_literal p [] h, isPrefixOf_nil_right,
          List.isEmpty_iff]
  | p, c :: cs, h => by
    have ih := regexSearch_literal p cs h
    simp [regexSearch, subSearch, matchHere_literal p (c :: cs) h, ih]

/-- On strings free of regex metacharacters, the store's case-insensitive
`$regex` search coincides with the spec-side case-insensitive substring
test. -/
theorem regexSearchI_literal (q s : String)
    (h : ∀ c ∈ q.toList, isRegexMeta c = false) :
    regexSearchI q s = specContainsCI s q := by
  have hdot : ∀ c ∈ q.toList, c ≠ '.' := by
    intro c hc heq
    have hf : isRegexMeta '.' = false := heq ▸ h c hc
    exact absurd hf (by decide)
  simpa [regexSearchI, specContainsCI, lowerChars] using
    regexSearch_literal q.toList s.toList hdot

/-! ### Claim theorems -/

/-- Claim C1: every beverage record returned by GET /api/beverages — with or
without the `tag` and `q` parameters — has `in_stock = true`, because the
filter dictionary always contains the clause `in_stock = True`. -/
theorem list_beverages_in_stock (store : List BeverageDoc)
    (tag q : Option String) :
    ((list_beverages store tag q).all fun d => d.in_stock) = true := by
  simp only [List.all_eq_true, list_beverages, List.mem_map, List.mem_filter]
  rintro r ⟨d, ⟨_, hf⟩, rfl⟩
  have h1 := evalFilter_in_stock hf
  rw [buildFilter_in_stock] at h1
  simpa [stripId] using h1

/-- Claim C6: no record returned by GET /api/beverages carries the
store-assigned `_id` field — it is removed from every document before
serialization. -/
theorem list_beverages_strips_id (store : List BeverageDoc)
    (tag q : Option String) :
    ((list_beverages store tag q).all fun r => r._id == none) = true := by
  simp only [List.all_eq_true, list_beverages, List.mem_map, List.mem_filter]
  rintro r ⟨d, _, rfl⟩
  rfl

/-- Claim C10: a `tag` or `q` parameter equal to the empty string behaves
exactly like an omitted parameter — Python truthiness makes `if tag:` and
`if q:` skip the clause for `""` just as for `None`. -/
theorem list_beverages_empty_params (store : List BeverageDoc)
    (tag q : Option String) :
    list_beverages store (some "") q = list_beverages store none q ∧
    list_beverages store tag (some "") = list_beverages store tag none :=
  ⟨rfl, rfl⟩

/-- Claim C8: with no configured database (`db is None`) the seed endpoint
raises HTTP 500 before touching any collection, so nothing is inserted. -/
theorem seed_beverages_db_unavailable (now : Nat) :
    seed_beverages none now = (none, .httpError 500 "Database not configured") ∧
    httpStatusOf (seed_beverages none now).2 = 500 :=
  ⟨rfl, rfl⟩

/-- Claim C2 (code behaviour at the failing input): submitting the body with
`email = "not-an-email"` leaves the store unchanged, but the pydantic
`ValidationError` raised by `ContactInquiry(**inquiry.model_dump())` inside
the handler escapes it, so FastAPI replies 500 — not the 422 the spec
promises. -/
theorem submit_contact_invalid_email :
    (submit_contact [] invalidInquiry 1).1 = [] ∧
    httpStatusOf (submit_contact [] invalidInquiry 1).2 = 500 ∧
    httpStatusOf (submit_contact [] invalidInquiry 1).2 ≠ 422 := by
  decide

/-- Claim C7: GET /test always returns a normal 200 response with the
"backend running" marker, for every store state — store handle missing,
collection listing succeeding, or collection listing raising — and for every
combination of environment values. -/
theorem test_database_never_fails (db : Option DbHandle)
    (urlSet nameSet : Bool) :
    ∃ r, test_database db urlSet nameSet = .ok r ∧ r.backend = "✅ Running" ∧
      httpStatusOf (test_database db urlSet nameSet) = 200 := by
  cases db with
  | none => exact ⟨_, rfl, rfl, rfl⟩
  | some h =>
    rcases h with ⟨nm, cr⟩
    cases cr <;> exact ⟨_, rfl, rfl, rfl⟩

/-- Claim C3: seeding an empty beverage collection inserts exactly the four
samples and reports count = 4; seeding a nonempty collection inserts nothing
and reports the pre-existing document count. -/
theorem seed_beverages_guard (store : List BeverageDoc) (now : Nat)
    (h : store ≠ []) :
    seed_beverages (some []) now
      = (some (sampleBeverages now), .ok ⟨true, "Seeded beverages", 4⟩) ∧
    (sampleBeverages now).length = 4 ∧
    seed_beverages (some store) now
      = (some store, .ok ⟨true, "Beverages already seeded", store.length⟩) := by
  refine ⟨rfl, rfl, ?_⟩
  have hpos : 0 < store.length := List.length_pos.mpr h
  simp [seed_beverages, hpos]

/-- Witness for claim C3: seeding with one pre-existing document is a no-op
reporting count 1, while seeding the empty collection inserts the four
samples. -/
theorem seed_beverages_guard_witness :
    (([demoDoc] : List BeverageDoc) ≠ []) ∧
    (seed_beverages (some []) 0
       = (some (sampleBeverages 0), .ok ⟨true, "Seeded beverages", 4⟩) ∧
     (sampleBeverages 0).length = 4 ∧
     seed_beverages (some [demoDoc]) 0
       = (some [demoDoc], .ok ⟨true, "Beverages already seeded", [demoDoc].length⟩)) :=
  ⟨by decide, seed_beverages_guard [demoDoc] 0 (by decide)⟩

/-- Claim C9: every record inserted by the seed endpoint satisfies the schema
invariants — price ≥ 0, size_ml within [50, 5000], name and flavor nonempty —
and both timestamps are stamped with the current UTC time, so
created_at = updated_at on every seeded record. -/
theorem sampleBeverages_schema_invariants (now : Nat) (d : BeverageDoc)
    (hd : d ∈ sampleBeverages now) :
    0 ≤ d.price ∧ 50 ≤ d.size_ml ∧ d.size_ml ≤ 5000 ∧ d.name ≠ "" ∧
    d.flavor ≠ "" ∧ d.created_at = some now ∧ d.updated_at = some now ∧
    d.created_at = d.updated_at := by
  simp only [sampleBeverages, List.mem_cons, List.not_mem_nil, or_false] at hd
  rcases hd with rfl | rfl | rfl | rfl <;>
    exact ⟨by norm_num, by norm_num, by norm_num, by simp, by simp,
           rfl, rfl, rfl⟩

/-- Witness for claim C9: the first seeded record, "Citrus Zing" at time 0,
satisfies every schema invariant. -/
theorem sampleBeverages_schema_invariants_witness :
    citrusZingDoc ∈ sampleBeverages 0 ∧
    (0 ≤ citrusZingDoc.price ∧ 50 ≤ citrusZingDoc.size_ml ∧
     citrusZingDoc.size_ml ≤ 5000 ∧ citrusZingDoc.name ≠ "" ∧
     citrusZingDoc.flavor ≠ "" ∧ citrusZingDoc.created_at = some 0 ∧
     citrusZingDoc.updated_at = some 0 ∧
     citrusZingDoc.created_at = citrusZingDoc.updated_at) :=
  ⟨List.mem_cons_self _ _,
   sampleBeverages_schema_invariants 0 citrusZingDoc (List.mem_cons_self _ _)⟩

/-- Counterexample to claim C4 as stated: with the single in-stock document
`mangoPlainDoc` (no dot in any text field) and `q = "."`, the endpoint
returns the document — `.` is a regex wildcard, not a literal —  while the
claimed case-insensitive-substring semantics returns nothing. -/
theorem list_beverages_q_counterexample :
    list_beverages [mangoPlainDoc] none (some ".")
      ≠ (([mangoPlainDoc].filter fun d => d.in_stock && specQMatches "." d).map
          stripId) ∧
    list_beverages [mangoPlainDoc] none (some ".") = [stripId mangoPlainDoc] ∧
    specQMatches "." mangoPlainDoc = false := by
  decide

/-- Claim C4 as amended: for a listing request whose `q` is nonempty and free
of regex metacharacters, and whose `tag` parameter is absent, the returned
set is exactly the in-stock beverages where `q` occurs as a case-insensitive
substring of name, flavor, or description (in general `q` is interpreted as a
case-insensitive regular expression, and a `tag` parameter filters
conjunctively). -/
theorem list_beverages_q_substring (store : List BeverageDoc) (q : String)
    (hq : q ≠ "") (hlit : ∀ c ∈ q.toList, isRegexMeta c = false) :
    list_beverages store none (some q)
      = (store.filter fun d => d.in_stock && specQMatches q d).map stripId := by
  unfold list_beverages
  congr 1
  apply List.filter_congr
  intro d _
  have hq1 : (q == "") = false := by simp [hq]
  simp [evalFilter, buildFilter, pyTruthy, hq1, specQMatches,
        regexSearchI_literal q d.name hlit, regexSearchI_literal q d.flavor hlit]
  cases hds : d.description with
  | none => simp
  | some ds => simp [regexSearchI_literal q ds hlit]

/-- Witness for claim C4 (amended): with `q = "man"` (nonempty, literal) the
endpoint returns exactly the substring matches of the one-document store. -/
theorem list_beverages_q_substring_witness :
    (("man" : String) ≠ "" ∧ ∀ c ∈ "man".toList, isRegexMeta c = false) ∧
    list_beverages [mangoPlainDoc] none (some "man")
      = (([mangoPlainDoc].filter fun d => d.in_stock && specQMatches "man" d).map
          stripId) :=
  ⟨⟨by decide, by decide⟩,
   list_beverages_q_substring [mangoPlainDoc] "man" (by decide) (by decide)⟩

/-- Counterexample to claim C5 as stated: `citrusDoc` is in stock and carries
the tag "citrus", yet the listing request with `tag = "citrus"` and
`q = "zzz"` returns nothing — the `q` filter applies conjunctively, so not
every in-stock beverage with the tag is returned. -/
theorem list_beverages_tag_counterexample :
    citrusDoc.in_stock = true ∧ citrusDoc.tags.contains "citrus" = true ∧
    list_beverages [citrusDoc] (some "citrus") (some "zzz") = [] := by
  decide

/-- Claim C5 as amended: for every listing request with a non-empty tag
parameter X, every returned beverage has X as an exact element of its tags
list; and when the `q` parameter is absent or empty, every in-stock beverage
whose tags list contains X is returned. -/
theorem list_beverages_tag_filter (store : List BeverageDoc) (X : String)
    (q : Option String) (hX : X ≠ "") :
    (((list_beverages store (some X) q).all fun r => r.tags.contains X) = true) ∧
    (pyTruthy q = false → ∀ d ∈ store, d.in_stock = true →
      d.tags.contains X = true → stripId d ∈ list_beverages store (some X) q) := by
  have hX1 : (X == "") = false := by simp [hX]
  constructor
  · simp only [List.all_eq_true, list_beverages, List.mem_map, List.mem_filter]
    rintro r ⟨d, ⟨_, hf⟩, rfl⟩
    simp only [evalFilter, buildFilter, pyTruthy, hX1, Bool.not_false,
               if_true, Bool.and_eq_true] at hf
    simpa [stripId] using hf.1.2
  · intro hqf d hd hstock htag
    simp only [list_beverages, List.mem_map]
    refine ⟨d, ?_, rfl⟩
    rw [List.mem_filter]
    refine ⟨hd, ?_⟩
    have h2 : (buildFilter (some X) q).tagIn = some X := by
      simp [buildFilter, pyTruthy, hX1]
    have h3 : (buildFilter (some X) q).orRegex = none := by
      simp [buildFilter, hqf]
    simp [evalFilter, buildFilter_in_stock, h2, h3, hstock, htag]
    exact List.mem_of_elem_eq_true htag

/-- Witness for claim C5 (amended): with `tag = "citrus"` and no `q`, the
one-document store returns its tagged document and nothing else. -/
theorem list_beverages_tag_filter_witness :
    (("citrus" : String) ≠ "") ∧
    ((((list_beverages [citrusDoc] (some "citrus") none).all
        fun r => r.tags.contains "citrus") = true) ∧
     (pyTruthy none = false → ∀ d ∈ [citrusDoc], d.in_stock = true →
       d.tags.contains "citrus" = true →
       stripId d ∈ list_beverages [citrusDoc] (some "citrus") none)) :=
  ⟨by decide, list_beverages_tag_filter [citrusDoc] "citrus" none (by decide)⟩
